import Mathlib

/-!
Verification of the aioxmpp entitycaps core (XEP-0115 entity capabilities):
a shallow embedding of src/aioxmpp/entitycaps/caps115.py (canonicalization
and hashing) and src/aioxmpp/entitycaps/service.py (tiered cache with
deduplicated resolution), together with theorems settling the spec claims.

Modelling conventions:
- Python bytes are List Nat (each element a byte value); bytes comparison
  is the lexicographic order on List Nat, which coincides with Python's
  bytes ordering (elementwise, first difference decides, proper prefix
  smaller).
- Python str values are Lean String; .encode("utf-8") is the utf8
  function below.
- Python exceptions are explicit error values (Except).
- asyncio futures are single-assignment cells (FutCell); the done
  callbacks registered by Cache.create_query_future run when a result or
  exception is set, which the model performs atomically in fut_set.
-/

set_option linter.unusedVariables false
set_option maxRecDepth 1000000

namespace Caps

/-! Byte-level helpers. -/

/-- UTF-8 encoding of one character (the byte sequence Python's
str.encode("utf-8") produces for it). -/
def utf8Char (c : Char) : List Nat :=
  let n := c.toNat
  if n < 128 then [n]
  else if n < 2048 then [192 ||| (n >>> 6), 128 ||| (n &&& 63)]
  else if n < 65536 then
    [224 ||| (n >>> 12), 128 ||| ((n >>> 6) &&& 63), 128 ||| (n &&& 63)]
  else
    [240 ||| (n >>> 18), 128 ||| ((n >>> 12) &&& 63),
     128 ||| ((n >>> 6) &&& 63), 128 ||| (n &&& 63)]

/-- Python str.encode("utf-8"): the byte list of a string. -/
def utf8 (s : String) : List Nat := s.data.flatMap utf8Char

/-- xml.sax.saxutils.escape on one character. The Python function applies
str.replace for the ampersand first and then for the angle brackets, which
is equivalent to this character-wise expansion because the replacement
texts introduce no character that a later replace rewrites except the
ampersands it itself produced (already-consumed positions are not
revisited by str.replace). -/
def escapeChar (c : Char) : List Char :=
  if c = '&' then "&amp;".data
  else if c = '<' then "&lt;".data
  else if c = '>' then "&gt;".data
  else [c]

/-- xml.sax.saxutils.escape (with the default entity table). -/
def escape (s : String) : String := String.mk (s.data.flatMap escapeChar)

/-! The caps115 data model: the slices of aioxmpp.disco.xso the hashed
query uses.  InfoQuery carries identities, features and extension forms,
plus the node attribute that Cache.add_cache_entry rewrites. -/

/-- One disco identity (category, type, optional language and name). -/
structure Identity where
  category : String
  type_ : String
  lang : Option String
  name : Option String
deriving DecidableEq, Repr

/-- One data-form field: its var attribute and its values. -/
structure Field where
  var : String
  values : List String
deriving DecidableEq, Repr

/-- One extension data form (a sequence of fields). -/
structure Form where
  fields : List Field
deriving DecidableEq, Repr

/-- The disco info query result: the unit that is hashed and cached. -/
structure Info where
  node : Option String
  identities : List Identity
  features : List String
  exts : List Form
deriving DecidableEq, Repr

/-- Error taxonomy of caps115: every raise site of the three build
functions plus hashlib.new rejecting an unknown algorithm.  All of these
are ValueError in Python. -/
inductive HashErr where
  | duplicateIdentity
  | duplicateFeature
  | multipleFormTypes
  | duplicateFormType
  | unknownAlgo
deriving DecidableEq, Repr

/-- The token one identity contributes in build_identities_string:
category, type, language ("" when absent) and name ("" when absent), each
XML-escaped and UTF-8 encoded, joined with "/" (byte 47). -/
def identityToken (identity : Identity) : List Nat :=
  List.intercalate [47]
    [utf8 (escape identity.category), utf8 (escape identity.type_),
     utf8 (escape (identity.lang.getD "")), utf8 (escape (identity.name.getD ""))]

/-- caps115.build_identities_string.  The duplicate check mirrors
len(set(identities)) != len(identities) via dedup; list.sort on bytes is
the lexicographic sort; b"" is appended and the tokens joined with "<"
(byte 60). -/
def build_identities_string (identities : List Identity) : Except HashErr (List Nat) :=
  let toks := identities.map identityToken
  if toks.dedup.length ≠ toks.length then .error .duplicateIdentity
  else .ok (List.intercalate [60] (List.insertionSort (· ≤ ·) toks ++ [[]]))

/-- caps115.build_features_string: same shape over escaped features. -/
def build_features_string (features : List String) : Except HashErr (List Nat) :=
  let feats := features.map (fun feature => utf8 (escape feature))
  if feats.dedup.length ≠ feats.length then .error .duplicateFeature
  else .ok (List.intercalate [60] (List.insertionSort (· ≤ ·) feats ++ [[]]))

/-- The distinct values carried by a form's FORM_TYPE fields:
set(value for field in form.fields.filter(attrs=...) for value in
field.values).  dedup models the set; only emptiness, being a singleton
and the singleton's element are ever consumed.  (The except KeyError
branch of the source guards fields lacking a var attribute; every Field
of this model carries one, so the branch is unreachable here.) -/
def form_types (form : Form) : List String :=
  ((form.fields.filter (fun field => field.var = "FORM_TYPE")).flatMap Field.values).dedup

/-- The first loop of caps115.build_forms_string: walk the forms, reject a
form with several distinct FORM_TYPE values, skip a form with none,
compute the escaped type token of the rest and reject a token that an
earlier form already produced, accumulating (token, form) pairs in input
order.  The Python set named types always equals the set of first
components of the accumulator, so membership is tested there. -/
def collectForms : List Form → List (List Nat × Form) →
    Except HashErr (List (List Nat × Form))
  | [], acc => .ok acc
  | form :: rest, acc =>
    match form_types form with
    | [] => collectForms rest acc
    | [v] =>
      if utf8 (escape v) ∈ acc.map Prod.fst then .error .duplicateFormType
      else collectForms rest (acc ++ [(utf8 (escape v), form)])
    | _ => .error .multipleFormTypes

/-- Emission of one non-FORM_TYPE field: its escaped var followed by its
escaped values sorted ascending. -/
def emitField (p : List Nat × List String) : List (List Nat) :=
  p.1 :: List.insertionSort (· ≤ ·) (p.2.map (fun v => utf8 (escape v)))

/-- Emission of one (type token, form) pair: the type token, then the
fields other than FORM_TYPE sorted by escaped var (Python sorted with a
key function is stable, as is insertionSort). -/
def emitForm (p : List Nat × Form) : List (List Nat) :=
  p.1 ::
    (List.insertionSort (fun a b : List Nat × List String => a.1 ≤ b.1)
      ((p.2.fields.filter (fun field => field.var ≠ "FORM_TYPE")).map
        (fun field => (utf8 (escape field.var), field.values)))).flatMap emitField

/-- caps115.build_forms_string.  forms_list.sort() compares (token, form)
pairs; the tokens are pairwise distinct by construction, so the
comparison never reaches the form component and sorting by the token
alone is the same sort. -/
def build_forms_string (forms : List Form) : Except HashErr (List Nat) :=
  match collectForms forms [] with
  | .error e => .error e
  | .ok forms_list =>
    .ok (List.intercalate [60]
      ((List.insertionSort (fun a b : List Nat × Form => a.1 ≤ b.1) forms_list).flatMap
          emitForm ++ [[]]))

/-! SHA-1 (hashlib.new("sha1")) over byte lists, and base64. -/

/-- Truncation to a 32-bit word. -/
def w32 (x : Nat) : Nat := x % 4294967296

/-- Left rotation of a 32-bit word. -/
def rotl (n x : Nat) : Nat := ((x <<< n) % 4294967296) ||| (x >>> (32 - n))

/-- Big-endian 8-byte encoding of a length in bits. -/
def be8 (n : Nat) : List Nat :=
  [(n >>> 56) &&& 255, (n >>> 48) &&& 255, (n >>> 40) &&& 255, (n >>> 32) &&& 255,
   (n >>> 24) &&& 255, (n >>> 16) &&& 255, (n >>> 8) &&& 255, n &&& 255]

/-- Big-endian 4-byte encoding of a 32-bit word. -/
def be4 (n : Nat) : List Nat :=
  [(n >>> 24) &&& 255, (n >>> 16) &&& 255, (n >>> 8) &&& 255, n &&& 255]

/-- SHA-1 padding: 0x80, zeros to 56 mod 64, 8-byte bit length. -/
def sha1pad (msg : List Nat) : List Nat :=
  let len := msg.length
  let k := (120 - ((len + 1) % 64)) % 64
  msg ++ [128] ++ List.replicate k 0 ++ be8 (len * 8)

/-- Big-endian 32-bit words of a 64-byte block. -/
def toWords : List Nat → List Nat
  | a :: b :: c :: d :: rest =>
    ((a <<< 24) ||| ((b <<< 16) ||| ((c <<< 8) ||| d))) :: toWords rest
  | _ => []

/-- Split a padded message into 64-byte blocks (fuel is the length). -/
def splitBlocks : List Nat → Nat → List (List Nat)
  | _, 0 => []
  | l, fuel + 1 =>
    match l with
    | [] => []
    | l => l.take 64 :: splitBlocks (l.drop 64) fuel

/-- Message-schedule extension from 16 to 80 words. -/
def extendW : List Nat → Nat → List Nat
  | ws, 0 => ws
  | ws, k + 1 =>
    let n := ws.length
    let w := rotl 1 (Nat.xor (Nat.xor (ws.getD (n - 3) 0) (ws.getD (n - 8) 0))
                            (Nat.xor (ws.getD (n - 14) 0) (ws.getD (n - 16) 0)))
    extendW (ws ++ [w]) k

/-- SHA-1 round function. -/
def sha1f (i b c d : Nat) : Nat :=
  if i < 20 then (b &&& c) ||| ((Nat.xor b 4294967295) &&& d)
  else if i < 40 then Nat.xor (Nat.xor b c) d
  else if i < 60 then ((b &&& c) ||| (b &&& d)) ||| (c &&& d)
  else Nat.xor (Nat.xor b c) d

/-- SHA-1 round constants. -/
def sha1k (i : Nat) : Nat :=
  if i < 20 then 1518500249
  else if i < 40 then 1859775393
  else if i < 60 then 2400959708
  else 3395469782

/-- The 80 SHA-1 rounds over one block's schedule. -/
def sha1rounds : Nat → List Nat → Nat × Nat × Nat × Nat × Nat → Nat × Nat × Nat × Nat × Nat
  | _, [], st => st
  | i, w :: ws, (a, b, c, d, e) =>
    let t := w32 (rotl 5 a + sha1f i b c d + e + sha1k i + w)
    sha1rounds (i + 1) ws (t, a, rotl 30 b, c, d)

/-- One SHA-1 compression step. -/
def sha1block (h : Nat × Nat × Nat × Nat × Nat) (block : List Nat) :
    Nat × Nat × Nat × Nat × Nat :=
  let ws := extendW (toWords block) 64
  match h, sha1rounds 0 ws h with
  | (h0, h1, h2, h3, h4), (a, b, c, d, e) =>
    (w32 (h0 + a), w32 (h1 + b), w32 (h2 + c), w32 (h3 + d), w32 (h4 + e))

/-- SHA-1 digest (20 bytes) of a byte list. -/
def sha1 (msg : List Nat) : List Nat :=
  let padded := sha1pad msg
  let blocks := splitBlocks padded padded.length
  match blocks.foldl sha1block (1732584193, 4023233417, 2562383102, 271733878, 3285377520) with
  | (h0, h1, h2, h3, h4) => be4 h0 ++ be4 h1 ++ be4 h2 ++ be4 h3 ++ be4 h4

/-- The standard base64 alphabet. -/
def b64alpha : List Char :=
  "ABCDEFGHIJKLMNOPQRSTUVWXYZabcdefghijklmnopqrstuvwxyz0123456789+/".data

/-- One base64 digit. -/
def b64digit (n : Nat) : Char := b64alpha.getD n 'A'

/-- base64.b64encode: standard alphabet, with = padding. -/
def b64encode : List Nat → List Char
  | [] => []
  | [a] => [b64digit (a >>> 2), b64digit ((a &&& 3) <<< 4), '=', '=']
  | [a, b] =>
    [b64digit (a >>> 2), b64digit (((a &&& 3) <<< 4) ||| (b >>> 4)),
     b64digit ((b &&& 15) <<< 2), '=']
  | a :: b :: c :: rest =>
    b64digit (a >>> 2) :: b64digit (((a &&& 3) <<< 4) ||| (b >>> 4)) ::
    b64digit (((b &&& 15) <<< 2) ||| (c >>> 6)) :: b64digit (c &&& 63) :: b64encode rest

/-- caps115.hash_query: feed the digest the identities string, the
features string and the forms string in that order (pure concatenation,
no separator), then base64 the raw digest.  hashlib.new raises ValueError
for an algorithm it does not know; sha1 is the only algorithm this model
carries (the only one the service ever passes). -/
def hash_query (query : Info) (algo : String) : Except HashErr String :=
  if algo = "sha1" then
    match build_identities_string query.identities with
    | .error e => .error e
    | .ok si =>
      match build_features_string query.features with
      | .error e => .error e
      | .ok sf =>
        match build_forms_string query.exts with
        | .error e => .error e
        | .ok sx => .ok (String.mk (b64encode (sha1 (si ++ sf ++ sx))))
  else .error .unknownAlgo

/-! The service layer: entitycaps/service.py. -/

/-- The service-level exception taxonomy: KeyError (NotFound), the
ValueError family (hash computation failures and the literal
ValueError("hash mismatch")), XSO parse failures from a dataset file, and
opaque transport or protocol errors raised by the disco query. -/
inductive PyExc where
  | keyError
  | hashValueError (e : HashErr)
  | hashMismatch
  | parseError
  | transportError (code : Nat)
deriving DecidableEq, Repr

/-- Which modelled exceptions an except-ValueError clause catches. -/
def PyExc.isValueError : PyExc → Bool
  | .hashValueError _ => true
  | .hashMismatch => true
  | _ => false

/-- A character urllib.parse.quote leaves unescaped when safe is the
empty string: ASCII letters, digits, underscore, dot, dash, tilde. -/
def quoteSafeByte (b : Nat) : Bool :=
  (65 ≤ b && b ≤ 90) || (97 ≤ b && b ≤ 122) || (48 ≤ b && b ≤ 57) ||
    b = 95 || b = 46 || b = 45 || b = 126

/-- An uppercase hexadecimal digit. -/
def hexDigit (n : Nat) : Char := "0123456789ABCDEF".data.getD n '0'

/-- Percent-encoding of one byte under urllib.parse.quote. -/
def quoteByte (b : Nat) : List Char :=
  if quoteSafeByte b then [Char.ofNat b] else ['%', hexDigit (b / 16), hexDigit (b % 16)]

/-- urllib.parse.quote(node, safe=""): percent-encode the UTF-8 bytes. -/
def quote (s : String) : String := String.mk ((utf8 s).flatMap quoteByte)

/-- The dataset file name "{hash}_{quoted node}.xml" used by
Cache.lookup_in_database and writeback. -/
def dbFileName (hash_ node : String) : String :=
  hash_ ++ "_" ++ quote node ++ ".xml"

/-- One dataset directory: a map from file name to file content, where a
present file either parses to an Info or fails to parse.  none stands for
an absent file (opening raises OSError). -/
def Dataset : Type := String → Option (Except Unit Info)

/-- The Cache state: the future registry (_lookup_cache, holding future
identifiers), the memory overlay, and the optional system and user
dataset paths. -/
structure Cache where
  lookup_cache : String × String → Option Nat
  memory_overlay : String × String → Option Info
  system_db_path : Option Dataset
  user_db_path : Option Dataset

/-- A Cache with nothing cached and no dataset paths configured. -/
def emptyCache : Cache :=
  { lookup_cache := fun _ => none
    memory_overlay := fun _ => none
    system_db_path := none
    user_db_path := none }

/-- Reading a file from an optional dataset directory: none when the path
is unset or the file is absent (both fall through in the source). -/
def tierRead (db : Option Dataset) (fname : String) : Option (Except Unit Info) :=
  match db with
  | none => none
  | some fs => fs fname

/-- Cache.lookup_in_database: memory overlay first, then the system
dataset file, then the user dataset file; an absent file is a miss, a
present file that fails to parse is a hard error, and exhaustion raises
KeyError. -/
def lookup_in_database (c : Cache) (hash_ node : String) : Except PyExc Info :=
  match c.memory_overlay (hash_, node) with
  | some result => .ok result
  | none =>
    match tierRead c.system_db_path (dbFileName hash_ node) with
    | some (.ok i) => .ok i
    | some (.error _) => .error .parseError
    | none =>
      match tierRead c.user_db_path (dbFileName hash_ node) with
      | some (.ok i) => .ok i
      | some (.error _) => .error .parseError
      | none => .error .keyError

/-- The waiting loop of Cache.lookup, driven by the successive outcomes
the task observes from the futures registered for the key.  Each list
element is the completed outcome of the future found by one iteration's
registry access; an exhausted list is an iteration that finds no future
registered and whose registry access therefore raises KeyError.  (When a
future completes, asyncio schedules its done callbacks in registration
order, and the _erase_future callback is registered at creation, before
any waiter, so a waiter always resumes after the entry was erased: the
next iteration sees a fresh future or none.)  A ValueError outcome is
swallowed and the loop continues; any other outcome is terminal. -/
def lookupLoop : List (Except PyExc Info) → Except PyExc Info
  | [] => .error .keyError
  | .ok v :: _ => .ok v
  | .error e :: rest => if e.isValueError then lookupLoop rest else .error e

/-- Cache.lookup: the database lookup, falling back to the waiting loop
when (and only when) the database raises KeyError. -/
def cache_lookup (c : Cache) (hash_ node : String)
    (obs : List (Except PyExc Info)) : Except PyExc Info :=
  match lookup_in_database c hash_ node with
  | .ok result => .ok result
  | .error .keyError => lookupLoop obs
  | .error e => .error e

/-- Cache._erase_future: remove the registry entry for the key, but only
when it still holds this very future. -/
def erase_future (c : Cache) (for_hash for_node : String) (fut : Nat) : Cache :=
  match c.lookup_cache (for_hash, for_node) with
  | none => c
  | some existing =>
    if existing = fut then
      { c with lookup_cache := fun k =>
          if k = (for_hash, for_node) then none else c.lookup_cache k }
    else c

/-- Cache.add_cache_entry: shallow-copy the entry, set the copy's node to
the key's node, store the copy in the memory overlay.  The asynchronous
writeback to the user dataset runs in an executor and touches no field of
this state; the source entry value itself is never mutated. -/
def add_cache_entry (c : Cache) (hash_ node : String) (entry : Info) : Cache :=
  let copied_entry := { entry with node := some node }
  { c with memory_overlay := fun k =>
      if k = (hash_, node) then some copied_entry else c.memory_overlay k }

instance {ε α : Type} [DecidableEq ε] [DecidableEq α] : DecidableEq (Except ε α)
  | .ok a, .ok b =>
    if h : a = b then .isTrue (by rw [h]) else .isFalse (by intro hc; cases hc; exact h rfl)
  | .error a, .error b =>
    if h : a = b then .isTrue (by rw [h]) else .isFalse (by intro hc; cases hc; exact h rfl)
  | .ok _, .error _ => .isFalse (by intro hc; cases hc)
  | .error _, .ok _ => .isFalse (by intro hc; cases hc)

/-- One asyncio future as the service uses it: the key its _erase_future
done callback was bound to, and its state (none while pending). -/
structure FutCell where
  key : String × String
  state : Option (Except PyExc Info)
deriving DecidableEq, Repr

/-- The state the EntityCapsService methods touch: the cache, the
allocated futures and a fresh-identifier counter. -/
structure SState where
  cache : Cache
  futs : Nat → Option FutCell
  next_id : Nat

/-- A service state over an empty cache with no futures allocated. -/
def emptySState : SState :=
  { cache := emptyCache, futs := fun _ => none, next_id := 0 }

/-- Cache.create_query_future: allocate a pending future, register its
erase callback data, and store it in the registry under the key. -/
def create_query_future (st : SState) (hash_ node : String) : Nat × SState :=
  let id := st.next_id
  (id,
   { cache := { st.cache with lookup_cache := fun k =>
       if k = (hash_, node) then some id else st.cache.lookup_cache k }
     futs := fun i => if i = id then some ⟨(hash_, node), none⟩ else st.futs i
     next_id := id + 1 })

/-- Future completion (set_result or set_exception): record the outcome
and run the done callback, which is Cache._erase_future bound to the
key captured at creation. -/
def fut_set (st : SState) (id : Nat) (out : Except PyExc Info) : SState :=
  match st.futs id with
  | none => st
  | some cell =>
    { st with
      futs := fun i => if i = id then some { cell with state := some out } else st.futs i
      cache := erase_future st.cache cell.key.1 cell.key.2 id }

/-- str.replace("-", ""): drop every dash. -/
def removeDashes (s : String) : String := String.mk (s.data.filter (fun c => c ≠ '-'))

/-- EntityCapsService.query_and_cache.  The fetch argument is the outcome
of the disco_client.query_info round trip (require_fresh): an error there
propagates to the caller before the future is ever touched.  On fetched
data, hash_query may raise ValueError (set on the future), else the
computed fingerprint is compared with ver: equality stores the entry and
sets the result, inequality sets ValueError("hash mismatch").  In every
fetched-data case the function returns the data to its caller. -/
def query_and_cache (st : SState) (fetch : Except PyExc Info)
    (jid node ver hash_ : String) (fut : Nat) : Except PyExc Info × SState :=
  match fetch with
  | .error e => (.error e, st)
  | .ok data =>
    match hash_query data (removeDashes hash_) with
    | .error exc => (.ok data, fut_set st fut (.error (.hashValueError exc)))
    | .ok expected =>
      if expected = ver then
        let st1 := { st with
          cache := add_cache_entry st.cache hash_ (node ++ "#" ++ ver) data }
        (.ok data, fut_set st1 fut (.ok data))
      else
        (.ok data, fut_set st fut (.error .hashMismatch))

/-- EntityCapsService.lookup_info: try the cache (obs being the future
outcomes the waiting loop would observe, as in cache_lookup); only
KeyError falls through to the query path, which registers a fresh future
and runs query_and_cache, returning whatever it returns. -/
def lookup_info (st : SState) (obs : List (Except PyExc Info))
    (fetch : Except PyExc Info) (jid node ver hash_ : String) :
    Except PyExc Info × SState :=
  match cache_lookup st.cache hash_ (node ++ "#" ++ ver) obs with
  | .ok info => (.ok info, st)
  | .error .keyError =>
    let p := create_query_future st hash_ (node ++ "#" ++ ver)
    query_and_cache p.2 fetch jid node ver hash_ p.1
  | .error e => (.error e, st)

/-! Shared concrete values used by witnesses. -/

/-- An InfoQuery with no identities, features or forms. -/
def infoEmpty : Info := { node := none, identities := [], features := [], exts := [] }

/-! Helper lemmas. -/

/-- The check len(set(l)) = len(l) holds exactly for duplicate-free
lists: dedup is a sublist, so an equal length forces equality. -/
theorem dedup_length_eq_iff {α : Type} [DecidableEq α] (l : List α) :
    l.dedup.length = l.length ↔ l.Nodup := by
  constructor
  · intro h
    exact List.dedup_eq_self.mp ((List.dedup_sublist l).eq_of_length h)
  · intro h
    rw [List.dedup_eq_self.mpr h]

/-- Sorting byte strings is permutation-invariant: the lexicographic
order on byte lists is total, transitive and antisymmetric, so the sorted
permutation is unique. -/
theorem insertionSort_eq_of_perm {l1 l2 : List (List Nat)} (h : l1.Perm l2) :
    List.insertionSort (· ≤ ·) l1 = List.insertionSort (· ≤ ·) l2 :=
  List.eq_of_perm_of_sorted
    ((List.perm_insertionSort _ l1).trans (h.trans (List.perm_insertionSort _ l2).symm))
    (List.sorted_insertionSort _ l1) (List.sorted_insertionSort _ l2)

/-- Claim C3: build_identities_string escapes category, type, language
("" if absent) and name ("" if absent) of each identity, joins the four
with "/" into one token per identity (identityToken), raises the
duplicate-identity ValueError if any two tokens are byte-equal, and
otherwise returns the tokens sorted ascending by byte value with an
appended empty trailing token, all joined with "<" (byte 60). -/
theorem build_identities_string_spec (identities : List Identity) :
    (¬ (identities.map identityToken).Nodup →
      build_identities_string identities = .error .duplicateIdentity) ∧
    ((identities.map identityToken).Nodup →
      ∃ toks, toks.Perm (identities.map identityToken) ∧
        List.Sorted (· ≤ ·) toks ∧
        build_identities_string identities =
          .ok (List.intercalate [60] (toks ++ [[]]))) := by
  constructor
  · intro h
    unfold build_identities_string
    rw [if_pos]
    intro hlen
    exact h ((dedup_length_eq_iff _).mp hlen)
  · intro h
    refine ⟨List.insertionSort (· ≤ ·) (identities.map identityToken),
      List.perm_insertionSort _ _, List.sorted_insertionSort _ _, ?_⟩
    unfold build_identities_string
    rw [if_neg (by simp [(dedup_length_eq_iff _).mpr h])]

/-- Witness for C3: a two-identity list with distinct tokens reaches the
sorted-and-joined success branch. -/
theorem build_identities_string_spec_witness :
    ∃ toks,
      toks.Perm ([⟨"client", "pc", none, some "x"⟩,
        ⟨"bot", "tel", none, none⟩].map identityToken) ∧
      List.Sorted (· ≤ ·) toks ∧
      build_identities_string
          [⟨"client", "pc", none, some "x"⟩, ⟨"bot", "tel", none, none⟩] =
        .ok (List.intercalate [60] (toks ++ [[]])) :=
  (build_identities_string_spec
    [⟨"client", "pc", none, some "x"⟩, ⟨"bot", "tel", none, none⟩]).2 (by decide)

/-- Claim C5: build_identities_string and build_features_string are
invariant under permutation of their input list (duplicate detection
depends only on the multiset of tokens, and the sorted sequence of a
permuted token list is unchanged). -/
theorem build_strings_perm_invariant (ids ids2 : List Identity) (fs fs2 : List String) :
    (ids.Perm ids2 → build_identities_string ids = build_identities_string ids2) ∧
    (fs.Perm fs2 → build_features_string fs = build_features_string fs2) := by
  constructor
  · intro hp
    have hm : (ids.map identityToken).Perm (ids2.map identityToken) := hp.map _
    unfold build_identities_string
    by_cases hd : (ids.map identityToken).Nodup
    · have hd2 : (ids2.map identityToken).Nodup := hm.nodup_iff.mp hd
      rw [if_neg (by simp [(dedup_length_eq_iff _).mpr hd]),
        if_neg (by simp [(dedup_length_eq_iff _).mpr hd2]),
        insertionSort_eq_of_perm hm]
    · have hd2 : ¬ (ids2.map identityToken).Nodup := fun h => hd (hm.nodup_iff.mpr h)
      rw [if_pos (fun hlen => hd ((dedup_length_eq_iff _).mp hlen)),
        if_pos (fun hlen => hd2 ((dedup_length_eq_iff _).mp hlen))]
  · intro hp
    have hm : (fs.map (fun feature => utf8 (escape feature))).Perm
        (fs2.map (fun feature => utf8 (escape feature))) := hp.map _
    unfold build_features_string
    by_cases hd : (fs.map (fun feature => utf8 (escape feature))).Nodup
    · have hd2 := hm.nodup_iff.mp hd
      rw [if_neg (by simp [(dedup_length_eq_iff _).mpr hd]),
        if_neg (by simp [(dedup_length_eq_iff _).mpr hd2]),
        insertionSort_eq_of_perm hm]
    · have hd2 : ¬ (fs2.map (fun feature => utf8 (escape feature))).Nodup :=
        fun h => hd (hm.nodup_iff.mpr h)
      rw [if_pos (fun hlen => hd ((dedup_length_eq_iff _).mp hlen)),
        if_pos (fun hlen => hd2 ((dedup_length_eq_iff _).mp hlen))]

/-- Witness for C5 at a concrete transposition of two identities and of
two features. -/
theorem build_strings_perm_invariant_witness :
    build_identities_string
        [⟨"client", "pc", none, none⟩, ⟨"bot", "tel", none, none⟩] =
      build_identities_string
        [⟨"bot", "tel", none, none⟩, ⟨"client", "pc", none, none⟩] ∧
    build_features_string ["http://a", "http://b"] =
      build_features_string ["http://b", "http://a"] :=
  ⟨(build_strings_perm_invariant
      [⟨"client", "pc", none, none⟩, ⟨"bot", "tel", none, none⟩]
      [⟨"bot", "tel", none, none⟩, ⟨"client", "pc", none, none⟩]
      [] []).1 (List.Perm.swap _ _ _),
   (build_strings_perm_invariant [] []
      ["http://a", "http://b"] ["http://b", "http://a"]).2 (List.Perm.swap _ _ _)⟩

/-- The first loop of build_forms_string processes the forms left to
right: splitting the input decomposes the accumulation. -/
theorem collectForms_append (l1 l2 : List Form) (acc : List (List Nat × Form)) :
    collectForms (l1 ++ l2) acc =
      match collectForms l1 acc with
      | .ok lacc => collectForms l2 lacc
      | .error e => .error e := by
  induction l1 generalizing acc with
  | nil => simp [collectForms]
  | cons form rest ih =>
    rw [List.cons_append]
    cases hft : form_types form with
    | nil =>
      rw [show collectForms (form :: (rest ++ l2)) acc = collectForms (rest ++ l2) acc by
            simp [collectForms, hft],
          show collectForms (form :: rest) acc = collectForms rest acc by
            simp [collectForms, hft]]
      exact ih acc
    | cons v vs =>
      cases vs with
      | nil =>
        by_cases hmem : utf8 (escape v) ∈ acc.map Prod.fst
        · simp [collectForms, hft, hmem]
        · rw [show collectForms (form :: (rest ++ l2)) acc =
                collectForms (rest ++ l2) (acc ++ [(utf8 (escape v), form)]) by
                  simp [collectForms, hft, hmem],
              show collectForms (form :: rest) acc =
                collectForms rest (acc ++ [(utf8 (escape v), form)]) by
                  simp [collectForms, hft, hmem]]
          exact ih _
      | cons v2 vs2 => simp [collectForms, hft]

/-- Claim C4: build_forms_string raises the multiple-types ValueError
when a form carries more than one distinct FORM_TYPE value (and the forms
before it passed the first loop), silently skips a form with zero
FORM_TYPE values (dropping such a form leaves the whole result
unchanged), and raises the duplicate-type ValueError when a form's
escaped type token was already produced by an earlier form. -/
theorem build_forms_string_errors :
    (∀ pre form post L, collectForms pre [] = .ok L →
      2 ≤ (form_types form).length →
      build_forms_string (pre ++ form :: post) = .error .multipleFormTypes) ∧
    (∀ pre form post, form_types form = [] →
      build_forms_string (pre ++ form :: post) = build_forms_string (pre ++ post)) ∧
    (∀ pre form post L v, collectForms pre [] = .ok L →
      form_types form = [v] → utf8 (escape v) ∈ L.map Prod.fst →
      build_forms_string (pre ++ form :: post) = .error .duplicateFormType) := by
  refine ⟨?_, ?_, ?_⟩
  · intro pre form post L hpre h2
    obtain ⟨a, b, t, hft⟩ : ∃ a b t, form_types form = a :: b :: t := by
      cases hft : form_types form with
      | nil => rw [hft] at h2; simp at h2
      | cons a vs =>
        cases vs with
        | nil => rw [hft] at h2; simp at h2
        | cons b t => exact ⟨a, b, t, rfl⟩
    unfold build_forms_string
    rw [collectForms_append, hpre]
    simp [collectForms, hft]
  · intro pre form post hft
    have h1 : collectForms (pre ++ form :: post) [] = collectForms (pre ++ post) [] := by
      rw [collectForms_append, collectForms_append]
      cases collectForms pre [] with
      | error e => rfl
      | ok L => simp [collectForms, hft]
    unfold build_forms_string
    rw [h1]
  · intro pre form post L v hpre hft hmem
    unfold build_forms_string
    rw [collectForms_append, hpre]
    simp [collectForms, hft, hmem]

/-- Witness for C4: an ambiguous form is rejected, a form without
FORM_TYPE is skipped, and a repeated type token is rejected. -/
theorem build_forms_string_errors_witness :
    build_forms_string [⟨[⟨"FORM_TYPE", ["a", "b"]⟩]⟩] = .error .multipleFormTypes ∧
    build_forms_string [⟨[⟨"var1", ["x"]⟩]⟩, ⟨[⟨"FORM_TYPE", ["t"]⟩]⟩] =
      build_forms_string [⟨[⟨"FORM_TYPE", ["t"]⟩]⟩] ∧
    build_forms_string [⟨[⟨"FORM_TYPE", ["t"]⟩]⟩, ⟨[⟨"FORM_TYPE", ["t"]⟩, ⟨"var2", ["y"]⟩]⟩] =
      .error .duplicateFormType :=
  ⟨build_forms_string_errors.1 [] ⟨[⟨"FORM_TYPE", ["a", "b"]⟩]⟩ [] [] (by decide) (by decide),
   build_forms_string_errors.2.1 [] ⟨[⟨"var1", ["x"]⟩]⟩ [⟨[⟨"FORM_TYPE", ["t"]⟩]⟩] (by decide),
   build_forms_string_errors.2.2 [⟨[⟨"FORM_TYPE", ["t"]⟩]⟩]
     ⟨[⟨"FORM_TYPE", ["t"]⟩, ⟨"var2", ["y"]⟩]⟩ []
     [(utf8 (escape "t"), ⟨[⟨"FORM_TYPE", ["t"]⟩]⟩)] "t" (by decide) (by decide) (by decide)⟩

/-- The capability description of the XEP-0115 reference example, with
the identity name the claim states ("Exodus"). -/
def exodusClaimInfo : Info :=
  { node := none
    identities := [⟨"client", "pc", none, some "Exodus"⟩]
    features := ["http://jabber.org/protocol/caps", "http://jabber.org/protocol/disco#info",
                 "http://jabber.org/protocol/disco#items", "http://jabber.org/protocol/muc"]
    exts := [] }

/-- The capability description of the XEP-0115 reference example as
published, whose identity name is "Exodus 0.9.1". -/
def exodusInfo : Info :=
  { node := none
    identities := [⟨"client", "pc", none, some "Exodus 0.9.1"⟩]
    features := ["http://jabber.org/protocol/caps", "http://jabber.org/protocol/disco#info",
                 "http://jabber.org/protocol/disco#items", "http://jabber.org/protocol/muc"]
    exts := [] }

/-- Counterexample to C6 as stated: with identity name "Exodus" the
computed fingerprint is 78rSfG/scMNfvtR9N+jsCYAuQ8c=, not the claimed
QgayPKawpkPSDYmwT/WM94uAlu0=. -/
theorem hash_query_exodus_claim_false :
    hash_query exodusClaimInfo "sha1" = .ok "78rSfG/scMNfvtR9N+jsCYAuQ8c=" ∧
    hash_query exodusClaimInfo "sha1" ≠ .ok "QgayPKawpkPSDYmwT/WM94uAlu0=" := by
  constructor
  · decide
  · decide

/-- Claim C6 (amended): the published XEP-0115 reference vector has
identity name "Exodus 0.9.1"; for that description hash_query with sha1
returns exactly QgayPKawpkPSDYmwT/WM94uAlu0= (the digest of the
concatenated identities, features and forms strings, base64-encoded with
the standard alphabet and padding). -/
theorem hash_query_exodus_vector :
    hash_query exodusInfo "sha1" = .ok "QgayPKawpkPSDYmwT/WM94uAlu0=" := by
  decide

/-- Claim C7: lookup_in_database tries the memory overlay, then the
system dataset file named from the key with the node percent-encoded,
then the user dataset file with the same name; an absent file (or unset
path) is a miss, and when all three tiers miss the lookup raises
KeyError. -/
theorem lookup_in_database_tier_order (c : Cache) (hash_ node : String) :
    (∀ r, c.memory_overlay (hash_, node) = some r →
      lookup_in_database c hash_ node = .ok r) ∧
    (c.memory_overlay (hash_, node) = none →
      ∀ i, tierRead c.system_db_path (dbFileName hash_ node) = some (.ok i) →
        lookup_in_database c hash_ node = .ok i) ∧
    (c.memory_overlay (hash_, node) = none →
      tierRead c.system_db_path (dbFileName hash_ node) = none →
      ∀ i, tierRead c.user_db_path (dbFileName hash_ node) = some (.ok i) →
        lookup_in_database c hash_ node = .ok i) ∧
    (c.memory_overlay (hash_, node) = none →
      tierRead c.system_db_path (dbFileName hash_ node) = none →
      tierRead c.user_db_path (dbFileName hash_ node) = none →
      lookup_in_database c hash_ node = .error .keyError) := by
  refine ⟨?_, ?_, ?_, ?_⟩
  · intro r hmem
    unfold lookup_in_database
    rw [hmem]
  · intro hmem i hsys
    unfold lookup_in_database
    rw [hmem, hsys]
  · intro hmem hsys i husr
    unfold lookup_in_database
    rw [hmem, hsys, husr]
  · intro hmem hsys husr
    unfold lookup_in_database
    rw [hmem, hsys, husr]

/-- A dataset directory holding one parsed file for the key
("sha-1", "n#v"). -/
def dsOne : Dataset :=
  fun f => if f = dbFileName "sha-1" "n#v" then some (.ok { infoEmpty with node := some "n#v" })
    else none

/-- Witness for C7: each tier answers in turn as the earlier tiers miss,
and the empty cache raises KeyError. -/
theorem lookup_in_database_tier_order_witness :
    lookup_in_database
        { emptyCache with memory_overlay := fun k =>
            if k = ("sha-1", "n#v") then some infoEmpty else none } "sha-1" "n#v" =
      .ok infoEmpty ∧
    lookup_in_database { emptyCache with system_db_path := some dsOne } "sha-1" "n#v" =
      .ok { infoEmpty with node := some "n#v" } ∧
    lookup_in_database { emptyCache with user_db_path := some dsOne } "sha-1" "n#v" =
      .ok { infoEmpty with node := some "n#v" } ∧
    lookup_in_database emptyCache "sha-1" "n#v" = .error .keyError :=
  ⟨(lookup_in_database_tier_order _ "sha-1" "n#v").1 infoEmpty (by decide),
   (lookup_in_database_tier_order _ "sha-1" "n#v").2.1 (by decide) _ (by decide),
   (lookup_in_database_tier_order _ "sha-1" "n#v").2.2.1 (by decide) (by decide) _ (by decide),
   (lookup_in_database_tier_order _ "sha-1" "n#v").2.2.2 (by decide) (by decide) (by decide)⟩

/-- Claim C8: committing an entry and looking the key up again returns
the committed description (its node field rewritten to the key's node,
every description field equal), synchronously from the memory overlay:
the result is one and the same whatever the system and user dataset
directories hold, so no dataset file is read and the outcome of the
asynchronous user-dataset persistence cannot affect it. -/
theorem add_then_lookup_memory (c : Cache) (hash_ node : String) (entry : Info)
    (sys usr : Option Dataset) :
    lookup_in_database
        { add_cache_entry c hash_ node entry with
            system_db_path := sys, user_db_path := usr }
        hash_ node = .ok { entry with node := some node } ∧
    ({ entry with node := some node } : Info).identities = entry.identities ∧
    ({ entry with node := some node } : Info).features = entry.features ∧
    ({ entry with node := some node } : Info).exts = entry.exts := by
  refine ⟨?_, rfl, rfl, rfl⟩
  unfold lookup_in_database add_cache_entry
  simp

/-- Claim C9: on a database miss, Cache.lookup raises KeyError when no
future is registered for the key; a registered future that completes with
a value resolves the lookup; a future failing with a ValueError is
swallowed and the loop waits on whatever future the registry then holds;
and when no future remains after such a failure the registry access
raises KeyError instead of waiting or spinning. -/
theorem cache_lookup_miss_behavior (c : Cache) (hash_ node : String)
    (hmiss : lookup_in_database c hash_ node = .error .keyError) :
    (cache_lookup c hash_ node [] = .error .keyError) ∧
    (∀ v rest, cache_lookup c hash_ node (.ok v :: rest) = .ok v) ∧
    (∀ e rest, e.isValueError = true →
      cache_lookup c hash_ node (.error e :: rest) = cache_lookup c hash_ node rest) ∧
    (∀ e, e.isValueError = true →
      cache_lookup c hash_ node [.error e] = .error .keyError) := by
  have hred : ∀ obs, cache_lookup c hash_ node obs = lookupLoop obs := by
    intro obs
    unfold cache_lookup
    rw [hmiss]
  refine ⟨by rw [hred]; rfl,
    fun v rest => by rw [hred]; rfl,
    fun e rest he => by rw [hred, hred]; simp [lookupLoop, he],
    fun e he => by rw [hred]; simp [lookupLoop, he]⟩

/-- Witness for C9 on the empty cache: no future means KeyError, a
completed future delivers its value, a hash-mismatch failure falls
through to the next observation, and a lone failure ends in KeyError. -/
theorem cache_lookup_miss_behavior_witness :
    cache_lookup emptyCache "sha-1" "n#v" [] = .error .keyError ∧
    cache_lookup emptyCache "sha-1" "n#v" [.ok infoEmpty] = .ok infoEmpty ∧
    cache_lookup emptyCache "sha-1" "n#v" [.error .hashMismatch, .ok infoEmpty] =
      cache_lookup emptyCache "sha-1" "n#v" [.ok infoEmpty] ∧
    cache_lookup emptyCache "sha-1" "n#v" [.error .hashMismatch] = .error .keyError :=
  ⟨(cache_lookup_miss_behavior emptyCache "sha-1" "n#v" (by decide)).1,
   (cache_lookup_miss_behavior emptyCache "sha-1" "n#v" (by decide)).2.1 infoEmpty [],
   (cache_lookup_miss_behavior emptyCache "sha-1" "n#v" (by decide)).2.2.1
     .hashMismatch [.ok infoEmpty] (by decide),
   (cache_lookup_miss_behavior emptyCache "sha-1" "n#v" (by decide)).2.2.2
     .hashMismatch (by decide)⟩

/-- Claim C10: add_cache_entry stores under the key a copy of the entry
whose node field is set to the key's node and whose other fields are the
entry's own; no other overlay key and no other cache component changes
(and the model's entry value is immutable, as the source's shallow copy
leaves the caller's object untouched). -/
theorem add_cache_entry_frame (c : Cache) (hash_ node : String) (entry : Info) :
    ((add_cache_entry c hash_ node entry).memory_overlay (hash_, node) =
      some { entry with node := some node }) ∧
    (∀ k, k ≠ (hash_, node) →
      (add_cache_entry c hash_ node entry).memory_overlay k = c.memory_overlay k) ∧
    (({ entry with node := some node } : Info).node = some node ∧
     ({ entry with node := some node } : Info).identities = entry.identities ∧
     ({ entry with node := some node } : Info).features = entry.features ∧
     ({ entry with node := some node } : Info).exts = entry.exts) ∧
    ((add_cache_entry c hash_ node entry).lookup_cache = c.lookup_cache ∧
     (add_cache_entry c hash_ node entry).system_db_path = c.system_db_path ∧
     (add_cache_entry c hash_ node entry).user_db_path = c.user_db_path) := by
  refine ⟨by simp [add_cache_entry], ?_, ⟨rfl, rfl, rfl, rfl⟩, rfl, rfl, rfl⟩
  intro k hk
  simp [add_cache_entry, hk]

/-- Witness for C10 at a concrete commit and a concrete distinct key. -/
theorem add_cache_entry_frame_witness :
    ((add_cache_entry emptyCache "sha-1" "n#v" infoEmpty).memory_overlay ("sha-1", "n#v") =
      some { infoEmpty with node := some "n#v" }) ∧
    ((add_cache_entry emptyCache "sha-1" "n#v" infoEmpty).memory_overlay ("sha-1", "other") =
      emptyCache.memory_overlay ("sha-1", "other")) :=
  ⟨(add_cache_entry_frame emptyCache "sha-1" "n#v" infoEmpty).1,
   (add_cache_entry_frame emptyCache "sha-1" "n#v" infoEmpty).2.1
     ("sha-1", "other") (by decide)⟩

/-- Counterexample to C1 as stated: on a cache miss (empty state, no
registered future) with a fetched description whose computed digest
(2jmj7l5rSw0yVb/vlWAYkK/YBwk=, the sha1 of the empty description) differs
from the advertised fingerprint XXXX, the calling task of lookup_info
receives the fetched unverified description as a return value, not a
hash-mismatch error. -/
theorem lookup_info_mismatch_returns_data :
    (lookup_info emptySState [] (.ok infoEmpty)
        "romeo@montague.lit" "http://node" "XXXX" "sha-1").1 = .ok infoEmpty ∧
    hash_query infoEmpty (removeDashes "sha-1") = .ok "2jmj7l5rSw0yVb/vlWAYkK/YBwk=" ∧
    ("2jmj7l5rSw0yVb/vlWAYkK/YBwk=" : String) ≠ "XXXX" := by
  refine ⟨by decide, by decide, by decide⟩

/-- Claim C1 (amended): when the cache lookup misses and the fetched
description's computed digest differs from the advertised fingerprint,
lookup_info sets the ValueError("hash mismatch") on the resolution future
it registered (so concurrent waiters observe the failure, and the future
is erased from the registry) and adds nothing to the memory overlay, but
the calling task itself receives the fetched unverified description as
the return value rather than the error. -/
theorem lookup_info_miss_mismatch (st : SState) (obs : List (Except PyExc Info))
    (data : Info) (jid node ver hash_ expected : String)
    (hmiss : cache_lookup st.cache hash_ (node ++ "#" ++ ver) obs = .error .keyError)
    (hhash : hash_query data (removeDashes hash_) = .ok expected)
    (hne : expected ≠ ver) :
    (lookup_info st obs (.ok data) jid node ver hash_).1 = .ok data ∧
    ((lookup_info st obs (.ok data) jid node ver hash_).2.futs st.next_id =
      some ⟨(hash_, node ++ "#" ++ ver), some (.error .hashMismatch)⟩) ∧
    ((lookup_info st obs (.ok data) jid node ver hash_).2.cache.lookup_cache
      (hash_, node ++ "#" ++ ver) = none) ∧
    ((lookup_info st obs (.ok data) jid node ver hash_).2.cache.memory_overlay =
      st.cache.memory_overlay) := by
  refine ⟨?_, ?_, ?_, ?_⟩ <;>
    simp [lookup_info, hmiss, query_and_cache, hhash, hne,
      fut_set, create_query_future, erase_future]

/-- Witness for C1 (amended) at the empty state: the fetched empty
description hashes to 2jmj7l5rSw0yVb/vlWAYkK/YBwk=, the advertised
fingerprint is YYYY, and the conclusion is evaluated there. -/
theorem lookup_info_miss_mismatch_witness :
    (lookup_info emptySState [] (.ok infoEmpty)
        "romeo@montague.lit" "http://node" "YYYY" "sha-1").1 = .ok infoEmpty ∧
    ((lookup_info emptySState [] (.ok infoEmpty)
        "romeo@montague.lit" "http://node" "YYYY" "sha-1").2.futs emptySState.next_id =
      some ⟨("sha-1", "http://node" ++ "#" ++ "YYYY"), some (.error .hashMismatch)⟩) ∧
    ((lookup_info emptySState [] (.ok infoEmpty)
        "romeo@montague.lit" "http://node" "YYYY" "sha-1").2.cache.lookup_cache
      ("sha-1", "http://node" ++ "#" ++ "YYYY") = none) ∧
    ((lookup_info emptySState [] (.ok infoEmpty)
        "romeo@montague.lit" "http://node" "YYYY" "sha-1").2.cache.memory_overlay =
      emptySState.cache.memory_overlay) :=
  lookup_info_miss_mismatch emptySState [] infoEmpty
    "romeo@montague.lit" "http://node" "YYYY" "sha-1" "2jmj7l5rSw0yVb/vlWAYkK/YBwk="
    (by decide) (by decide) (by decide)

/-- Counterexample to C2 as stated: when the network fetch raises a
transport error, query_and_cache propagates the error to its caller and
never touches the resolution future: the future stays pending and stays
registered in the cache, instead of being completed with that error and
removed. -/
theorem query_and_cache_transport_leaves_pending :
    ((query_and_cache (create_query_future emptySState "sha-1" "http://node#v").2
        (.error (.transportError 0)) "romeo@montague.lit" "http://node" "v" "sha-1"
        (create_query_future emptySState "sha-1" "http://node#v").1).1 =
      .error (.transportError 0)) ∧
    ((query_and_cache (create_query_future emptySState "sha-1" "http://node#v").2
        (.error (.transportError 0)) "romeo@montague.lit" "http://node" "v" "sha-1"
        (create_query_future emptySState "sha-1" "http://node#v").1).2.futs 0 =
      some ⟨("sha-1", "http://node#v"), none⟩) ∧
    ((query_and_cache (create_query_future emptySState "sha-1" "http://node#v").2
        (.error (.transportError 0)) "romeo@montague.lit" "http://node" "v" "sha-1"
        (create_query_future emptySState "sha-1" "http://node#v").1).2.cache.lookup_cache
      ("sha-1", "http://node#v") = some 0) := by
  refine ⟨rfl, by decide, by decide⟩

/-- Claim C2 (amended): for a freshly registered resolution future,
query_and_cache completes it and its completion callback removes it from
the registry on every fetched-data outcome — result on a matching digest
(with the entry committed to the overlay), ValueError on a hash
computation failure or on a digest mismatch — while a transport or
protocol error raised by the fetch propagates to the caller of
query_and_cache and leaves the future pending and still registered. -/
theorem query_and_cache_outcomes (st0 : SState) (data : Info) (e : PyExc)
    (jid node ver hash_ : String) :
    (query_and_cache (create_query_future st0 hash_ (node ++ "#" ++ ver)).2
        (.error e) jid node ver hash_
        (create_query_future st0 hash_ (node ++ "#" ++ ver)).1 =
      (.error e, (create_query_future st0 hash_ (node ++ "#" ++ ver)).2)) ∧
    (∀ exc, hash_query data (removeDashes hash_) = .error exc →
      ((query_and_cache (create_query_future st0 hash_ (node ++ "#" ++ ver)).2
          (.ok data) jid node ver hash_
          (create_query_future st0 hash_ (node ++ "#" ++ ver)).1).1 = .ok data) ∧
      ((query_and_cache (create_query_future st0 hash_ (node ++ "#" ++ ver)).2
          (.ok data) jid node ver hash_
          (create_query_future st0 hash_ (node ++ "#" ++ ver)).1).2.futs st0.next_id =
        some ⟨(hash_, node ++ "#" ++ ver), some (.error (.hashValueError exc))⟩) ∧
      ((query_and_cache (create_query_future st0 hash_ (node ++ "#" ++ ver)).2
          (.ok data) jid node ver hash_
          (create_query_future st0 hash_ (node ++ "#" ++ ver)).1).2.cache.lookup_cache
        (hash_, node ++ "#" ++ ver) = none)) ∧
    (hash_query data (removeDashes hash_) = .ok ver →
      ((query_and_cache (create_query_future st0 hash_ (node ++ "#" ++ ver)).2
          (.ok data) jid node ver hash_
          (create_query_future st0 hash_ (node ++ "#" ++ ver)).1).1 = .ok data) ∧
      ((query_and_cache (create_query_future st0 hash_ (node ++ "#" ++ ver)).2
          (.ok data) jid node ver hash_
          (create_query_future st0 hash_ (node ++ "#" ++ ver)).1).2.futs st0.next_id =
        some ⟨(hash_, node ++ "#" ++ ver), some (.ok data)⟩) ∧
      ((query_and_cache (create_query_future st0 hash_ (node ++ "#" ++ ver)).2
          (.ok data) jid node ver hash_
          (create_query_future st0 hash_ (node ++ "#" ++ ver)).1).2.cache.lookup_cache
        (hash_, node ++ "#" ++ ver) = none) ∧
      ((query_and_cache (create_query_future st0 hash_ (node ++ "#" ++ ver)).2
          (.ok data) jid node ver hash_
          (create_query_future st0 hash_ (node ++ "#" ++ ver)).1).2.cache.memory_overlay
        (hash_, node ++ "#" ++ ver) = some { data with node := some (node ++ "#" ++ ver) })) ∧
    (∀ x, hash_query data (removeDashes hash_) = .ok x → x ≠ ver →
      ((query_and_cache (create_query_future st0 hash_ (node ++ "#" ++ ver)).2
          (.ok data) jid node ver hash_
          (create_query_future st0 hash_ (node ++ "#" ++ ver)).1).1 = .ok data) ∧
      ((query_and_cache (create_query_future st0 hash_ (node ++ "#" ++ ver)).2
          (.ok data) jid node ver hash_
          (create_query_future st0 hash_ (node ++ "#" ++ ver)).1).2.futs st0.next_id =
        some ⟨(hash_, node ++ "#" ++ ver), some (.error .hashMismatch)⟩) ∧
      ((query_and_cache (create_query_future st0 hash_ (node ++ "#" ++ ver)).2
          (.ok data) jid node ver hash_
          (create_query_future st0 hash_ (node ++ "#" ++ ver)).1).2.cache.lookup_cache
        (hash_, node ++ "#" ++ ver) = none)) := by
  refine ⟨rfl, ?_, ?_, ?_⟩
  · intro exc hexc
    refine ⟨?_, ?_, ?_⟩ <;>
      simp [query_and_cache, hexc, fut_set, create_query_future, erase_future]
  · intro hok
    refine ⟨?_, ?_, ?_, ?_⟩ <;>
      simp [query_and_cache, hok, fut_set, create_query_future, erase_future,
        add_cache_entry]
  · intro x hx hne
    refine ⟨?_, ?_, ?_⟩ <;>
      simp [query_and_cache, hx, hne, fut_set, create_query_future, erase_future]

/-- Witness for C2 (amended), instantiating the transport-error conjunct
and the mismatch conjunct at the empty state with the empty description
(digest 2jmj7l5rSw0yVb/vlWAYkK/YBwk=) and advertised fingerprint vvvv. -/
theorem query_and_cache_outcomes_witness :
    (query_and_cache (create_query_future emptySState "sha-1" ("http://node" ++ "#" ++ "vvvv")).2
        (.error (.transportError 7)) "romeo@montague.lit" "http://node" "vvvv" "sha-1"
        (create_query_future emptySState "sha-1" ("http://node" ++ "#" ++ "vvvv")).1 =
      (.error (.transportError 7),
        (create_query_future emptySState "sha-1" ("http://node" ++ "#" ++ "vvvv")).2)) ∧
    ((query_and_cache (create_query_future emptySState "sha-1" ("http://node" ++ "#" ++ "vvvv")).2
        (.ok infoEmpty) "romeo@montague.lit" "http://node" "vvvv" "sha-1"
        (create_query_future emptySState "sha-1" ("http://node" ++ "#" ++ "vvvv")).1).1 =
      .ok infoEmpty) ∧
    ((query_and_cache (create_query_future emptySState "sha-1" ("http://node" ++ "#" ++ "vvvv")).2
        (.ok infoEmpty) "romeo@montague.lit" "http://node" "vvvv" "sha-1"
        (create_query_future emptySState "sha-1" ("http://node" ++ "#" ++ "vvvv")).1).2.futs
      emptySState.next_id =
        some ⟨("sha-1", "http://node" ++ "#" ++ "vvvv"), some (.error .hashMismatch)⟩) ∧
    ((query_and_cache (create_query_future emptySState "sha-1" ("http://node" ++ "#" ++ "vvvv")).2
        (.ok infoEmpty) "romeo@montague.lit" "http://node" "vvvv" "sha-1"
        (create_query_future emptySState "sha-1" ("http://node" ++ "#" ++ "vvvv")).1).2.cache.lookup_cache
      ("sha-1", "http://node" ++ "#" ++ "vvvv") = none) :=
  ⟨(query_and_cache_outcomes emptySState infoEmpty (.transportError 7)
      "romeo@montague.lit" "http://node" "vvvv" "sha-1").1,
   ((query_and_cache_outcomes emptySState infoEmpty (.transportError 7)
      "romeo@montague.lit" "http://node" "vvvv" "sha-1").2.2.2
        "2jmj7l5rSw0yVb/vlWAYkK/YBwk=" (by decide) (by decide)).1,
   ((query_and_cache_outcomes emptySState infoEmpty (.transportError 7)
      "romeo@montague.lit" "http://node" "vvvv" "sha-1").2.2.2
        "2jmj7l5rSw0yVb/vlWAYkK/YBwk=" (by decide) (by decide)).2.1,
   ((query_and_cache_outcomes emptySState infoEmpty (.transportError 7)
      "romeo@montague.lit" "http://node" "vvvv" "sha-1").2.2.2
        "2jmj7l5rSw0yVb/vlWAYkK/YBwk=" (by decide) (by decide)).2.2⟩

end Caps
